import Mathlib

/-!
Shallow embedding of `src/main.py`, a curses-based weekly timetable editor.

Modelling conventions:
* Python `dict`s are insertion-ordered association lists (`List (key × value)`);
  reads are `List.lookup`, writes are `dictInsert` (update in place or append),
  `del` is `dictErase`.
* Python `int`s are `Int` (key codes, cursor coordinates, day indices).
* Code that raises `InvalidDataException` is modelled with `Except String`;
  every `Except.error` of the loader corresponds to a raised
  `InvalidDataException` in the source.
* The curses rendering calls are not modelled; the input handlers are modelled
  as pure state-transition functions which additionally return the message of
  a blocking popup window when the source displays one.
-/

/-- Python dict assignment `d[k] = v`: replaces the value of an existing key in
place (keeping its position) or appends a new entry at the end. -/
def dictInsert {β : Type} (k : String) (v : β) : List (String × β) → List (String × β)
  | [] => [(k, v)]
  | (k2, v2) :: rest => if k2 == k then (k, v) :: rest else (k2, v2) :: dictInsert k v rest

/-- Python dict deletion `del d[k]`. -/
def dictErase {β : Type} (k : String) (l : List (String × β)) : List (String × β) :=
  l.filter (fun p => p.1 != k)

/-- Python `list.index` on a list of strings: index of the first occurrence.
The source only calls it on elements that are present (a missing element would
raise `ValueError`; here it returns the length instead, which is never hit by
the claims). -/
def pyIndex (l : List String) (k : String) : Nat :=
  match l with
  | [] => 0
  | a :: rest => if a == k then 0 else pyIndex rest k + 1

-- Key codes used by the input handlers (ncurses values and ASCII).

def KEY_DOWN : Int := 258
def KEY_UP : Int := 259
def KEY_BACKSPACE : Int := 263
def KEY_ENTER : Int := 343

/-! ## Data structures (src/main.py, `Subject`, `Period`, `PeriodTimeStruct`, `Timetable`) -/

/-- `Subject` dataclass. -/
structure Subject where
  subject_id : String
  name : String
  teacher : String
deriving DecidableEq, Repr

/-- `Period` dataclass: a scheduled class (subject reference plus room). -/
structure Period where
  subject : Subject
  room : String
deriving DecidableEq, Repr

/-- `PeriodTimeStruct` dataclass: display name and start/end time of a slot. -/
structure PeriodTimeStruct where
  name : String
  start_time : String
  end_time : String
deriving DecidableEq, Repr

/-- `Timetable`: periods is `dict[int, dict[str, Period]]` (day index → slot key
→ period), subjects is `dict[str, Subject]`, period_times is
`dict[str, PeriodTimeStruct]`. -/
structure Timetable where
  periods : List (Int × List (String × Period))
  subjects : List (String × Subject)
  period_times : List (String × PeriodTimeStruct)
  name : String
  filename : String
deriving DecidableEq, Repr

/-! ## The JSON document written by `Timetable.save_file` / read by `App.load_file`

The document structure after `json.load`: the four top-level keys are present
(`load_file` raises before any of the code modelled below when one is missing),
while the inner objects may be missing fields, hence the `Option` fields. -/

/-- One period entry `{"subject": ..., "room": ...}` of a day object. -/
structure RawPeriod where
  subject : Option String
  room : Option String
deriving DecidableEq, Repr

/-- One subject entry `{"name": ..., "teacher": ...}`. -/
structure RawSubject where
  name : Option String
  teacher : Option String
deriving DecidableEq, Repr

/-- One period-time entry `{"name": ..., "start": ..., "end": ...}`. -/
structure RawPeriodTime where
  name : Option String
  start : Option String
  end_ : Option String
deriving DecidableEq, Repr

/-- A parsed JSON document with all four required top-level keys. -/
structure JsonDoc where
  name : String
  timetable : List (List (String × RawPeriod))
  subjects : List (String × RawSubject)
  period_times : List (String × RawPeriodTime)
deriving DecidableEq, Repr

/-- `Timetable.save_file` (src/main.py lines 130-182): serializes the in-memory
timetable into the JSON document. Day dict keys are discarded
(`for day in self.periods.values()`); days are emitted in insertion order. -/
def Timetable.save_file (t : Timetable) : JsonDoc :=
  { name := t.name
    timetable := t.periods.map (fun day =>
      day.2.map (fun p => (p.1, RawPeriod.mk (some p.2.subject.subject_id) (some p.2.room))))
    subjects := t.subjects.map (fun q =>
      (q.1, RawSubject.mk (some q.2.name) (some q.2.teacher)))
    period_times := t.period_times.map (fun q =>
      (q.1, RawPeriodTime.mk (some q.2.name) (some q.2.start_time) (some q.2.end_time))) }

/-! ## `App.load_file` (src/main.py lines 1459-1533), split into its four loops -/

/-- The subjects loop of `load_file`: entries missing `name` or `teacher`
invalidate the file. -/
def load_subjects : List (String × RawSubject) → Except String (List (String × Subject))
  | [] => Except.ok []
  | (subject_id, raw) :: rest =>
    match raw.name, raw.teacher with
    | some name, some teacher =>
      match load_subjects rest with
      | Except.ok rs => Except.ok ((subject_id, Subject.mk subject_id name teacher) :: rs)
      | Except.error e => Except.error e
    | _, _ => Except.error (subject_id ++ " has no name or teacher")

/-- The inner loop over one day object: a period entry missing its subject id,
referencing a subject absent from `subjects`, or missing `room` invalidates the
file. -/
def load_day (subjects : List (String × Subject)) :
    List (String × RawPeriod) → Except String (List (String × Period))
  | [] => Except.ok []
  | (period_id, val) :: rest =>
    match val.subject with
    | none => Except.error "No subject ID found"
    | some subject_id =>
      match List.lookup subject_id subjects, val.room with
      | some subject, some room =>
        match load_day subjects rest with
        | Except.ok ds => Except.ok ((period_id, Period.mk subject room) :: ds)
        | Except.error e => Except.error e
      | _, _ => Except.error (period_id ++ " has no subject or room")

/-- The `enumerate(timetable_raw)` loop of `load_file`: day entries are keyed
by their position in the JSON array, starting at `i`. -/
def load_days (subjects : List (String × Subject)) :
    List (List (String × RawPeriod)) → Nat → Except String (List (Int × List (String × Period)))
  | [], _ => Except.ok []
  | day :: rest, i =>
    match load_day subjects day with
    | Except.error e => Except.error e
    | Except.ok d =>
      match load_days subjects rest (i + 1) with
      | Except.error e => Except.error e
      | Except.ok r => Except.ok ((Int.ofNat i, d) :: r)

/-- The period-times loop of `load_file`: entries missing any of
`name`/`start`/`end` invalidate the file. -/
def load_period_times : List (String × RawPeriodTime) →
    Except String (List (String × PeriodTimeStruct))
  | [] => Except.ok []
  | (period_num, raw) :: rest =>
    match raw.name, raw.start, raw.end_ with
    | some name, some start_time, some end_time =>
      match load_period_times rest with
      | Except.ok rs => Except.ok ((period_num, PeriodTimeStruct.mk name start_time end_time) :: rs)
      | Except.error e => Except.error e
    | _, _, _ => Except.error ("Period " ++ period_num ++ " is missing data")

/-- `App.load_file`: turns a parsed JSON document into a `Timetable`, raising
`InvalidDataException` (modelled as `Except.error`) on the first invalid entry,
in the source's order: subjects loop, then timetable loop, then period-times
loop. -/
def App.load_file (doc : JsonDoc) (filename : String) : Except String Timetable :=
  match load_subjects doc.subjects with
  | Except.error e => Except.error e
  | Except.ok subjects =>
    match load_days subjects doc.timetable 0 with
    | Except.error e => Except.error e
    | Except.ok periods =>
      match load_period_times doc.period_times with
      | Except.error e => Except.error e
      | Except.ok period_times =>
        Except.ok (Timetable.mk periods subjects period_times doc.name filename)

/-! ## `Menu` list navigation (src/main.py lines 440-463) -/

/-- The clamp applied by `navigate_list` to `selected_list_item` (and, with the
same shape, by `navigate_timetable` to each cursor coordinate): add, then clamp
into `[0, n-1]`. -/
def clampIndex (n v : Int) : Int :=
  if v < 0 then 0
  else if v ≥ n then n - 1
  else v

/-- The viewport adjustment of `navigate_list`: keep the selection inside the
window of `maxItems` rows starting at `top`. -/
def adjustTop (maxItems sel top : Int) : Int :=
  if sel - top ≥ maxItems then sel - maxItems + 1
  else if sel - top < 0 then sel
  else top

/-- `Menu.navigate_list`: `n` is `len(self.list_items)`, `maxItems` is
`self.max_list_items`; returns the updated
`(selected_list_item, top_list_item)`. -/
def Menu.navigate_list (n maxItems : Int) (sel top change : Int) : Int × Int :=
  (clampIndex n (sel + change), adjustTop maxItems (clampIndex n (sel + change)) top)

/-- A whole key sequence of `navigate_list` calls starting from
`selected_list_item = 0`, `top_list_item = 0`. -/
def Menu.run_navigation (n maxItems : Int) (changes : List Int) : Int × Int :=
  changes.foldl (fun s c => Menu.navigate_list n maxItems s.1 s.2 c) (0, 0)

/-- `self.max_list_items = self.height - 8` with the constructor default
`height = 40`, used by every menu in the program. -/
def Menu.max_list_items : Int := 32

/-! ## `TimetableMenu` (view/edit state machine, src/main.py lines 548-945) -/

/-- `TimetableMenu.cell_x_count`: the fixed five-day week. -/
def TimetableMenu.cell_x_count : Int := 5

/-- `TimetableMenu.cell_y_count = len(self.timetable.period_times)`. -/
def TimetableMenu.cell_y_count (t : Timetable) : Int := t.period_times.length

/-- `TimetableMenu.max_input_size`. -/
def TimetableMenu.max_input_size : Nat := 20

/-- `TimetableMenu.navigate_timetable` (lines 699-714): move then clamp each
coordinate independently. -/
def TimetableMenu.navigate_timetable (xCount yCount : Int) (pos mv : Int × Int) : Int × Int :=
  (clampIndex xCount (pos.1 + mv.1), clampIndex yCount (pos.2 + mv.2))

/-- A whole sequence of `navigate_timetable` calls on a timetable's grid,
starting from cursor `(0, 0)`. -/
def TimetableMenu.run_navigate_timetable (t : Timetable) (moves : List (Int × Int)) : Int × Int :=
  moves.foldl
    (fun p mv => TimetableMenu.navigate_timetable
      TimetableMenu.cell_x_count (TimetableMenu.cell_y_count t) p mv)
    (0, 0)

/-- The mutable state of a `TimetableMenu` instance that the input handlers
touch (rendering-only attributes are omitted). -/
structure TimetableMenuState where
  state : Int
  timetable : Timetable
  selected_period_x : Int
  selected_period_y : Int
  selected_period : Option Period
  selected_subject : Option Subject
  input_buffer : String
  selected_list_item : Int
  top_list_item : Int
  editing : Bool
deriving DecidableEq, Repr

/-- The row tags of the `EditingPeriod` list, as built by
`display_editing_period` (lines 877-888) immediately before the key is read. -/
def editingPeriodTags : List String :=
  ["subject", "editor", "delete", "save_exit", "back"]

/-- The slot key under the cursor:
`list(self.timetable.period_times.keys())[self.selected_period_y]`. -/
def TimetableMenu.periodKeyAt (s : TimetableMenuState) : String :=
  (s.timetable.period_times.map Prod.fst).getD s.selected_period_y.toNat ""

/-- Applies a mutation to the day dict `periods[x]`. Python reads the day dict
and mutates it in place; a missing day key would raise `KeyError` (never hit:
the cursor ranges over existing days), modelled as a no-op. -/
def updateDay (periods : List (Int × List (String × Period))) (x : Int)
    (f : List (String × Period) → List (String × Period)) :
    List (Int × List (String × Period)) :=
  periods.map (fun d => if d.1 == x then (d.1, f d.2) else d)

/-- `navigate_list` as invoked from `process_input_editing_period`
(five list rows). -/
def TimetableMenu.navEditingPeriod (s : TimetableMenuState) (change : Int) : TimetableMenuState :=
  let p := Menu.navigate_list 5 Menu.max_list_items s.selected_list_item s.top_list_item change
  { s with selected_list_item := p.1, top_list_item := p.2 }

/-- `TimetableMenu.process_input_editing_period` (lines 759-813). Returns the
updated state and the message of the blocking popup if one is displayed.
The calls to `create_period_windows` only rebuild rendering windows from
`self.timetable` and are not part of the state. -/
def TimetableMenu.process_input_editing_period (key : Int) (s : TimetableMenuState) :
    TimetableMenuState × Option String :=
  if key = KEY_ENTER ∨ key = 10 then
    let tag := editingPeriodTags.getD s.selected_list_item.toNat ""
    if tag = "subject" then
      ({ s with selected_list_item := 0, state := 3 }, none)
    else if tag = "delete" then
      let period_id := TimetableMenu.periodKeyAt s
      let day := (List.lookup s.selected_period_x s.timetable.periods).getD []
      let t :=
        if (List.lookup period_id day).isSome then
          { s.timetable with
              periods := updateDay s.timetable.periods s.selected_period_x (dictErase period_id) }
        else s.timetable
      ({ s with timetable := t, state := 1 }, none)
    else if tag = "save_exit" then
      match s.selected_subject with
      | some subj =>
        let period_id := TimetableMenu.periodKeyAt s
        let new_period := Period.mk subj s.input_buffer
        ({ s with
            timetable := { s.timetable with
              periods := updateDay s.timetable.periods s.selected_period_x
                (dictInsert period_id new_period) },
            state := 1 }, none)
      | none => (s, some "Please select a subject.")
    else if tag = "back" then
      ({ s with state := 1 }, none)
    else (s, none)
  else if key = 27 then
    ({ s with state := 1, editing := false }, none)
  else if key = KEY_UP then
    (TimetableMenu.navEditingPeriod s (-1), none)
  else if key = KEY_DOWN then
    (TimetableMenu.navEditingPeriod s 1, none)
  else if editingPeriodTags.getD s.selected_list_item.toNat "" = "editor" then
    if (33 ≤ key ∧ key ≤ 126 ∨ key = 32) ∧ s.input_buffer.length < TimetableMenu.max_input_size then
      ({ s with input_buffer := s.input_buffer.push (Char.ofNat key.toNat) }, none)
    else if (key = KEY_BACKSPACE ∨ key = 127) ∧ s.input_buffer.length > 0 then
      ({ s with input_buffer := s.input_buffer.dropRight 1 }, none)
    else (s, none)
  else (s, none)

/-- The `(x_index, y_index)` grid coordinates of the period windows built by
`create_period_windows` (lines 618-639): one window per populated cell, the row
index being the position of the slot key in `period_times`. -/
def TimetableMenu.period_window_cells (t : Timetable) : List (Int × Nat) :=
  t.periods.flatMap (fun d =>
    d.2.map (fun p => (d.1, pyIndex (t.period_times.map Prod.fst) p.1)))

/-- `render_timetable` with a highlighted cell (lines 660-697): the
`<Add New>` placeholder is shown exactly when no period window sits at the
highlighted cell. -/
def TimetableMenu.shows_add_new (t : Timetable) (x y : Int) : Bool :=
  !((TimetableMenu.period_window_cells t).any
    (fun w => w.1 == x && ((w.2 : Int) == y)))

/-! ## `TimetableCreatorMenu` (creation wizard, src/main.py lines 948-1378) -/

/-- The mutable state of a `TimetableCreatorMenu` instance touched by the input
handlers. `input_buffer` here is `list[str]`. -/
structure CreatorState where
  state : Int
  input_buffer : List String
  timetable_name : String
  num_periods : Nat
  include_period_zero : Bool
  period_times : List (String × PeriodTimeStruct)
  subjects : List (String × Subject)
  subject_editing_id : Option String
  timetable : Option Timetable
  selected_list_item : Int
  top_list_item : Int
deriving DecidableEq, Repr

/-- `TimetableCreatorMenu.process_period_times` (lines 1008-1019): converts the
flat start/end buffer into the ordered `period_times` dict keyed `"0"`,
`"1"`, ... -/
def TimetableCreatorMenu.process_period_times (s : CreatorState) : CreatorState :=
  if s.state ≠ 1 then s
  else
    let start_index : Nat := if s.include_period_zero then 0 else 1
    { s with period_times :=
        (List.range (s.input_buffer.length / 2)).map (fun index =>
          (toString index,
            PeriodTimeStruct.mk ("Period " ++ toString (index + start_index))
              (s.input_buffer.getD (index * 2) "")
              (s.input_buffer.getD (index * 2 + 1) ""))) }

/-- `f"{data_dir}/{self.timetable_name.lower().replace(' ', '_')}.json"`. -/
def TimetableCreatorMenu.timetable_filename (data_dir name : String) : String :=
  data_dir ++ "/" ++ (String.map Char.toLower name).replace " " "_" ++ ".json"

/-- `TimetableCreatorMenu.create_timetable` (lines 998-1006): builds a
timetable with six empty day dicts keyed `0`..`5`. -/
def TimetableCreatorMenu.create_timetable (data_dir : String) (s : CreatorState) : CreatorState :=
  { s with timetable := some (Timetable.mk
      ((List.range 6).map (fun i => ((i : Int), ([] : List (String × Period)))))
      s.subjects s.period_times s.timetable_name
      (TimetableCreatorMenu.timetable_filename data_dir s.timetable_name)) }

/-- The `2 * num_periods` empty strings allocated as the start/end time
buffer. -/
def emptyTimeBuffer (num_periods : Nat) : List String :=
  List.replicate (2 * num_periods) ""

/-- Row tags of the `ViewingSubjects` list as built by
`display_viewing_subjects` (lines 1310-1326): one row per subject, then
"Create New Subject", "Create Timetable", "Back". -/
inductive VSTag where
  | subjectRow (id : String)
  | newRow
  | createRow
  | backRow
deriving DecidableEq, Repr

/-- The tag list of the `ViewingSubjects` screen. -/
def viewingSubjectsTags (subjects : List (String × Subject)) : List VSTag :=
  subjects.map (fun q => VSTag.subjectRow q.1) ++ [VSTag.newRow, VSTag.createRow, VSTag.backRow]

/-- `navigate_list` as invoked from `process_input_viewing_subjects`
(`len(list_items) = len(subjects) + 3`). -/
def TimetableCreatorMenu.navViewingSubjects (s : CreatorState) (change : Int) : CreatorState :=
  let p := Menu.navigate_list ((s.subjects.length : Int) + 3) Menu.max_list_items
    s.selected_list_item s.top_list_item change
  { s with selected_list_item := p.1, top_list_item := p.2 }

/-- `TimetableCreatorMenu.process_input_viewing_subjects` (lines 1129-1198).
`new_id` stands for the fresh random subject id drawn by the source's
`randint` loop (collision-checked there, so any unused id); it is only read by
the "Create New Subject" branch. On "Create Timetable" with at least one
subject the source also opens the nested `TimetableMenu` on the new timetable;
only the state effect on the creator is modelled. Returns the updated state
and the message of the blocking popup if one is displayed. -/
def TimetableCreatorMenu.process_input_viewing_subjects
    (data_dir new_id : String) (key : Int) (s : CreatorState) : CreatorState × Option String :=
  if key = KEY_ENTER ∨ key = 10 then
    match (viewingSubjectsTags s.subjects).getD s.selected_list_item.toNat VSTag.backRow with
    | VSTag.backRow =>
      ({ s with input_buffer := emptyTimeBuffer s.num_periods, selected_list_item := 0,
                state := 1 }, none)
    | VSTag.newRow =>
      ({ s with input_buffer := ["", ""], selected_list_item := 0,
                subject_editing_id := some new_id, state := 3 }, none)
    | VSTag.createRow =>
      if s.subjects.length = 0 then
        (s, some "Create at least one subject to proceed.")
      else
        (TimetableCreatorMenu.create_timetable data_dir s, none)
    | VSTag.subjectRow _ =>
      let sid := (s.subjects.map Prod.fst).getD s.selected_list_item.toNat ""
      ({ s with subject_editing_id := some sid,
                input_buffer := [((List.lookup sid s.subjects).map Subject.name).getD "",
                                 ((List.lookup sid s.subjects).map Subject.teacher).getD ""],
                state := 3 }, none)
  else if key = 27 then
    ({ s with input_buffer := emptyTimeBuffer s.num_periods, selected_list_item := 0,
              state := 1 }, none)
  else if key = KEY_UP then
    (TimetableCreatorMenu.navViewingSubjects s (-1), none)
  else if key = KEY_DOWN then
    (TimetableCreatorMenu.navViewingSubjects s 1, none)
  else (s, none)

/-- Row tags of the `CreatingPeriodTimes` list as built by
`display_creating_period_times` (lines 1293-1308): a title row plus two editor
rows per period, then "Next", "Back". -/
inductive CPTag where
  | title
  | editorStart
  | editorEnd
  | next
  | back
deriving DecidableEq, Repr

/-- The tag list of the `CreatingPeriodTimes` screen. -/
def creatingPeriodTimesTags (num_periods : Nat) : List CPTag :=
  (List.range num_periods).flatMap
      (fun _ => [CPTag.title, CPTag.editorStart, CPTag.editorEnd])
    ++ [CPTag.next, CPTag.back]

/-- `navigate_list` as invoked from `process_input_creating_period_times`
(`len(list_items) = 3 * num_periods + 2`). -/
def TimetableCreatorMenu.navCreatingPeriodTimes (s : CreatorState) (change : Int) : CreatorState :=
  let p := Menu.navigate_list ((3 * s.num_periods : Nat) + 2 : Nat) Menu.max_list_items
    s.selected_list_item s.top_list_item change
  { s with selected_list_item := p.1, top_list_item := p.2 }

/-- `TimetableCreatorMenu.process_input_creating_period_times`
(lines 1084-1127). -/
def TimetableCreatorMenu.process_input_creating_period_times
    (key : Int) (s : CreatorState) : CreatorState :=
  let tag := (creatingPeriodTimesTags s.num_periods).getD s.selected_list_item.toNat CPTag.title
  if key = KEY_ENTER ∨ key = 10 then
    if tag = CPTag.back then
      { s with input_buffer := [s.timetable_name, toString s.num_periods],
               selected_list_item := 0, state := 0 }
    else if tag = CPTag.next then
      let s2 := TimetableCreatorMenu.process_period_times s
      { s2 with input_buffer := [], selected_list_item := 0, state := 2 }
    else s
  else if key = 27 then
    { s with input_buffer := [s.timetable_name, toString s.num_periods],
             selected_list_item := 0, state := 0 }
  else if key = KEY_UP then
    TimetableCreatorMenu.navCreatingPeriodTimes s (-1)
  else if key = KEY_DOWN then
    TimetableCreatorMenu.navCreatingPeriodTimes s 1
  else if tag = CPTag.editorStart then
    let start_index := s.selected_list_item.toNat / 3
    let cur := s.input_buffer.getD (2 * start_index) ""
    if (48 ≤ key ∧ key ≤ 57) ∧ cur.length < 4 then
      { s with input_buffer := s.input_buffer.set (2 * start_index)
                 (cur.push (Char.ofNat key.toNat)) }
    else if (key = KEY_BACKSPACE ∨ key = 127) ∧ cur.length > 0 then
      { s with input_buffer := s.input_buffer.set (2 * start_index) (cur.dropRight 1) }
    else s
  else if tag = CPTag.editorEnd then
    let start_index := s.selected_list_item.toNat / 3
    let cur := s.input_buffer.getD (2 * start_index + 1) ""
    if (48 ≤ key ∧ key ≤ 57) ∧ cur.length < 4 then
      { s with input_buffer := s.input_buffer.set (2 * start_index + 1)
                 (cur.push (Char.ofNat key.toNat)) }
    else if (key = KEY_BACKSPACE ∨ key = 127) ∧ cur.length > 0 then
      { s with input_buffer := s.input_buffer.set (2 * start_index + 1) (cur.dropRight 1) }
    else s
  else s

/-! ## C3 / C4: navigation clamping invariants -/

lemma clampIndex_bounds (n v : Int) (hn : 1 ≤ n) :
    0 ≤ clampIndex n v ∧ clampIndex n v ≤ n - 1 := by
  unfold clampIndex
  split_ifs <;> omega

/-- The inductive invariant of the list-navigation state
`(selected_list_item, top_list_item)`. -/
def Menu.nav_invariant (n maxItems : Int) (s : Int × Int) : Prop :=
  0 ≤ s.1 ∧ s.1 ≤ n - 1 ∧ 0 ≤ s.2 ∧ s.2 ≤ s.1 ∧ s.1 ≤ s.2 + maxItems - 1

lemma Menu.navigate_list_preserves (n maxItems : Int) (hn : 1 ≤ n) (hm : 1 ≤ maxItems)
    (s : Int × Int) (c : Int) (h : Menu.nav_invariant n maxItems s) :
    Menu.nav_invariant n maxItems (Menu.navigate_list n maxItems s.1 s.2 c) := by
  obtain ⟨h1, h2, h3, h4, h5⟩ := h
  simp only [Menu.nav_invariant, Menu.navigate_list, clampIndex, adjustTop]
  split_ifs <;> simp_all <;> omega

lemma Menu.foldl_navigate_preserves (n maxItems : Int) (hn : 1 ≤ n) (hm : 1 ≤ maxItems) :
    ∀ (changes : List Int) (s : Int × Int), Menu.nav_invariant n maxItems s →
      Menu.nav_invariant n maxItems
        (changes.foldl (fun s c => Menu.navigate_list n maxItems s.1 s.2 c) s)
  | [], _, h => h
  | c :: cs, s, h =>
    Menu.foldl_navigate_preserves n maxItems hn hm cs _
      (Menu.navigate_list_preserves n maxItems hn hm s c h)

/-- C3. List navigation clamps: for every non-empty list of `n` items and every
sequence of `navigate_list(change)` calls starting from
`selected_list_item = 0`, `top_list_item = 0`, the selection stays in
`[0, n-1]` and the viewport top satisfies
`0 ≤ top ≤ selected ≤ top + max_list_items - 1` (here proved for every
viewport height `maxItems ≥ 1`, hence in particular for the program's
`max_list_items = 32`, and without needing `n > maxItems`). -/
theorem navigate_list_clamps (n maxItems : Int) (changes : List Int)
    (hn : 1 ≤ n) (hm : 1 ≤ maxItems) :
    0 ≤ (Menu.run_navigation n maxItems changes).1 ∧
    (Menu.run_navigation n maxItems changes).1 ≤ n - 1 ∧
    0 ≤ (Menu.run_navigation n maxItems changes).2 ∧
    (Menu.run_navigation n maxItems changes).2 ≤ (Menu.run_navigation n maxItems changes).1 ∧
    (Menu.run_navigation n maxItems changes).1 ≤
      (Menu.run_navigation n maxItems changes).2 + maxItems - 1 :=
  Menu.foldl_navigate_preserves n maxItems hn hm changes (0, 0)
    ⟨le_refl 0, by omega, le_refl 0, le_refl 0, by omega⟩

theorem navigate_list_clamps_witness :
    (1 : Int) ≤ 7 ∧ (1 : Int) ≤ Menu.max_list_items ∧
    (0 ≤ (Menu.run_navigation 7 Menu.max_list_items [3, 3, 3, -100, 2]).1 ∧
     (Menu.run_navigation 7 Menu.max_list_items [3, 3, 3, -100, 2]).1 ≤ 7 - 1 ∧
     0 ≤ (Menu.run_navigation 7 Menu.max_list_items [3, 3, 3, -100, 2]).2 ∧
     (Menu.run_navigation 7 Menu.max_list_items [3, 3, 3, -100, 2]).2 ≤
       (Menu.run_navigation 7 Menu.max_list_items [3, 3, 3, -100, 2]).1 ∧
     (Menu.run_navigation 7 Menu.max_list_items [3, 3, 3, -100, 2]).1 ≤
       (Menu.run_navigation 7 Menu.max_list_items [3, 3, 3, -100, 2]).2 +
         Menu.max_list_items - 1) :=
  ⟨by decide, by decide,
    navigate_list_clamps 7 Menu.max_list_items [3, 3, 3, -100, 2] (by decide) (by decide)⟩

/-- The grid-cursor range of the `Editing` state. -/
def TimetableMenu.cursor_in_grid (t : Timetable) (p : Int × Int) : Prop :=
  0 ≤ p.1 ∧ p.1 < TimetableMenu.cell_x_count ∧ 0 ≤ p.2 ∧ p.2 < TimetableMenu.cell_y_count t

lemma TimetableMenu.navigate_timetable_preserves (t : Timetable)
    (hy : 1 ≤ TimetableMenu.cell_y_count t) (p mv : Int × Int)
    (_h : TimetableMenu.cursor_in_grid t p) :
    TimetableMenu.cursor_in_grid t
      (TimetableMenu.navigate_timetable TimetableMenu.cell_x_count
        (TimetableMenu.cell_y_count t) p mv) := by
  obtain ⟨hx0, hx1⟩ := clampIndex_bounds TimetableMenu.cell_x_count (p.1 + mv.1) (by decide)
  obtain ⟨hy0, hy1⟩ := clampIndex_bounds (TimetableMenu.cell_y_count t) (p.2 + mv.2) hy
  simp only [TimetableMenu.cursor_in_grid, TimetableMenu.navigate_timetable]
  exact ⟨hx0, by omega, hy0, by omega⟩

lemma TimetableMenu.foldl_navigate_timetable_preserves (t : Timetable)
    (hy : 1 ≤ TimetableMenu.cell_y_count t) :
    ∀ (moves : List (Int × Int)) (p : Int × Int), TimetableMenu.cursor_in_grid t p →
      TimetableMenu.cursor_in_grid t
        (moves.foldl (fun p mv => TimetableMenu.navigate_timetable
          TimetableMenu.cell_x_count (TimetableMenu.cell_y_count t) p mv) p)
  | [], _, h => h
  | mv :: ms, p, h =>
    TimetableMenu.foldl_navigate_timetable_preserves t hy ms _
      (TimetableMenu.navigate_timetable_preserves t hy p mv h)

/-- C4. Grid cursor clamps: in the `Editing` state, after any sequence of
`navigate_timetable(x_change, y_change)` calls starting from cursor `(0, 0)`,
the cursor satisfies `0 ≤ x < 5` and `0 ≤ y < len(period_times)` (stated for
every timetable with at least one period-time row, so the grid is
non-empty). -/
theorem navigate_timetable_clamps (t : Timetable) (moves : List (Int × Int))
    (hy : 1 ≤ t.period_times.length) :
    0 ≤ (TimetableMenu.run_navigate_timetable t moves).1 ∧
    (TimetableMenu.run_navigate_timetable t moves).1 < 5 ∧
    0 ≤ (TimetableMenu.run_navigate_timetable t moves).2 ∧
    (TimetableMenu.run_navigate_timetable t moves).2 < TimetableMenu.cell_y_count t := by
  have hy2 : 1 ≤ TimetableMenu.cell_y_count t := by
    rw [TimetableMenu.cell_y_count]; omega
  have h := TimetableMenu.foldl_navigate_timetable_preserves t hy2 moves (0, 0)
    ⟨le_refl 0, by decide, le_refl 0, by omega⟩
  obtain ⟨h1, h2, h3, h4⟩ := h
  rw [TimetableMenu.cell_x_count] at h2
  exact ⟨h1, h2, h3, h4⟩

def witnessTimetable : Timetable := Timetable.mk
  [(0, [("0", Period.mk (Subject.mk "m" "Maths" "Smith") "204")]), (1, [])]
  [("m", Subject.mk "m" "Maths" "Smith")]
  [("0", PeriodTimeStruct.mk "Period 1" "0900" "0950"),
   ("1", PeriodTimeStruct.mk "Period 2" "1000" "1050")]
  "Test" "test.json"

theorem navigate_timetable_clamps_witness :
    1 ≤ witnessTimetable.period_times.length ∧
    (0 ≤ (TimetableMenu.run_navigate_timetable witnessTimetable [(1, 1), (7, -4), (-2, 0)]).1 ∧
     (TimetableMenu.run_navigate_timetable witnessTimetable [(1, 1), (7, -4), (-2, 0)]).1 < 5 ∧
     0 ≤ (TimetableMenu.run_navigate_timetable witnessTimetable [(1, 1), (7, -4), (-2, 0)]).2 ∧
     (TimetableMenu.run_navigate_timetable witnessTimetable [(1, 1), (7, -4), (-2, 0)]).2 <
       TimetableMenu.cell_y_count witnessTimetable) :=
  ⟨by decide, navigate_timetable_clamps witnessTimetable [(1, 1), (7, -4), (-2, 0)] (by decide)⟩

/-! ## Dictionary lemmas for the period-editing handlers -/

lemma lookup_dictInsert_self {β : Type} (k : String) (v : β) (l : List (String × β)) :
    List.lookup k (dictInsert k v l) = some v := by
  induction l with
  | nil => simp [dictInsert, List.lookup]
  | cons p rest ih =>
    obtain ⟨k2, v2⟩ := p
    by_cases h : k2 = k
    · subst h
      simp [dictInsert, List.lookup]
    · have hb1 : (k2 == k) = false := beq_eq_false_iff_ne.mpr h
      have hb2 : (k == k2) = false := beq_eq_false_iff_ne.mpr (Ne.symm h)
      simp [dictInsert, List.lookup, hb1, hb2, ih]

lemma lookup_dictErase_self {β : Type} (k : String) (l : List (String × β)) :
    List.lookup k (dictErase k l) = none := by
  induction l with
  | nil => rfl
  | cons p rest ih =>
    obtain ⟨k2, v2⟩ := p
    by_cases h : k2 = k
    · subst h
      simpa [dictErase] using ih
    · have hb1 : ((k2, v2).1 != k) = true := by simp [h]
      have hb2 : (k == k2) = false := beq_eq_false_iff_ne.mpr (Ne.symm h)
      simp only [dictErase] at ih ⊢
      rw [List.filter_cons, if_pos hb1, List.lookup_cons, hb2]
      exact ih

lemma mem_dictErase {β : Type} (k : String) (l : List (String × β)) (p : String × β)
    (h : p ∈ dictErase k l) : p ∈ l ∧ p.1 ≠ k := by
  rw [dictErase, List.mem_filter] at h
  exact ⟨h.1, by simpa using h.2⟩

lemma lookup_updateDay_self (periods : List (Int × List (String × Period))) (x : Int)
    (f : List (String × Period) → List (String × Period)) :
    List.lookup x (updateDay periods x f) = (List.lookup x periods).map f := by
  induction periods with
  | nil => simp [updateDay, List.lookup]
  | cons d rest ih =>
    obtain ⟨k, day⟩ := d
    by_cases h : k = x
    · subst h
      have hc : ((k, day).1 == k) = true := by simp
      rw [updateDay, List.map_cons, if_pos hc, List.lookup_cons, List.lookup_cons]
      simp only [beq_self_eq_true]
      rfl
    · have hb1 : ¬(((k, day).1 == x) = true) := by
        intro hc
        exact h (by simpa using beq_iff_eq.mp hc)
      have hb2 : (x == k) = false := beq_eq_false_iff_ne.mpr (Ne.symm h)
      rw [updateDay, List.map_cons, if_neg hb1, List.lookup_cons, List.lookup_cons, hb2]
      simpa [updateDay] using ih

lemma pyIndex_getD (l : List String) (k : String) :
    ∀ n : Nat, pyIndex l k = n → n < l.length → l.getD n "" = k := by
  induction l with
  | nil => intro n _ hn; simp at hn
  | cons a rest ih =>
    intro n h hn
    by_cases ha : a = k
    · subst ha
      simp [pyIndex] at h
      subst h
      rfl
    · have hb : (a == k) = false := beq_eq_false_iff_ne.mpr ha
      rw [pyIndex, hb] at h
      simp at h
      cases n with
      | zero => omega
      | succ m =>
        have : rest.getD m "" = k := ih m (by omega) (by simpa using hn)
        simpa using this

/-! ## C5: room field editor bounds in `EditingPeriod` -/

/-- C5. Field editor bounds for the room editor row of `EditingPeriod`
(`list_items` index 1, tag `"editor"`): a printable-ASCII-or-space key appends
its character when the buffer is shorter than `max_input_size` (length grows by
one), leaves the buffer unchanged at `max_input_size`, and a backspace key on
the empty buffer is a no-op. -/
theorem room_editor_bounds (s : TimetableMenuState) (key : Int)
    (_hstate : s.state = 2) (hrow : s.selected_list_item = 1) :
    ((33 ≤ key ∧ key ≤ 126 ∨ key = 32) →
      s.input_buffer.length < TimetableMenu.max_input_size →
      ((TimetableMenu.process_input_editing_period key s).1.input_buffer =
         s.input_buffer.push (Char.ofNat key.toNat) ∧
       (TimetableMenu.process_input_editing_period key s).1.input_buffer.length =
         s.input_buffer.length + 1))
    ∧ ((33 ≤ key ∧ key ≤ 126 ∨ key = 32) →
      s.input_buffer.length = TimetableMenu.max_input_size →
      (TimetableMenu.process_input_editing_period key s).1 = s)
    ∧ ((key = KEY_BACKSPACE ∨ key = 127) → s.input_buffer = "" →
      (TimetableMenu.process_input_editing_period key s).1 = s) := by
  refine ⟨?_, ?_, ?_⟩
  · intro hk hlen
    unfold TimetableMenu.process_input_editing_period
    rw [if_neg (by simp only [KEY_ENTER]; omega), if_neg (by omega),
        if_neg (by simp only [KEY_UP]; omega), if_neg (by simp only [KEY_DOWN]; omega),
        if_pos (by rw [hrow]; rfl), if_pos ⟨hk, hlen⟩]
    exact ⟨rfl, String.length_push _⟩
  · intro hk hlen
    unfold TimetableMenu.process_input_editing_period
    rw [if_neg (by simp only [KEY_ENTER]; omega), if_neg (by omega),
        if_neg (by simp only [KEY_UP]; omega), if_neg (by simp only [KEY_DOWN]; omega),
        if_pos (by rw [hrow]; rfl), if_neg (by omega),
        if_neg (by simp only [KEY_BACKSPACE]; omega)]
  · intro hk hempty
    unfold TimetableMenu.process_input_editing_period
    rw [if_neg (by simp only [KEY_ENTER, KEY_BACKSPACE] at *; omega), if_neg (by simp only [KEY_BACKSPACE] at hk; omega),
        if_neg (by simp only [KEY_UP, KEY_BACKSPACE] at *; omega),
        if_neg (by simp only [KEY_DOWN, KEY_BACKSPACE] at *; omega),
        if_pos (by rw [hrow]; rfl),
        if_neg (by simp only [KEY_BACKSPACE] at hk; omega),
        if_neg (by rw [hempty]; simp)]

/-- A concrete `EditingPeriod` state sitting on the room editor row with an
empty buffer. -/
def editorWitnessState : TimetableMenuState :=
  { state := 2, timetable := witnessTimetable, selected_period_x := 0, selected_period_y := 0,
    selected_period := none, selected_subject := none, input_buffer := "",
    selected_list_item := 1, top_list_item := 0, editing := true }

/-- The same state with a buffer already at `max_input_size = 20`. -/
def fullBufferState : TimetableMenuState :=
  { editorWitnessState with input_buffer := "aaaaaaaaaaaaaaaaaaaa" }

theorem room_editor_bounds_witness :
    ((TimetableMenu.process_input_editing_period 65 editorWitnessState).1.input_buffer =
       editorWitnessState.input_buffer.push (Char.ofNat (65 : Int).toNat) ∧
     (TimetableMenu.process_input_editing_period 65 editorWitnessState).1.input_buffer.length =
       editorWitnessState.input_buffer.length + 1) ∧
    (TimetableMenu.process_input_editing_period 65 fullBufferState).1 = fullBufferState ∧
    (TimetableMenu.process_input_editing_period 263 editorWitnessState).1 = editorWitnessState :=
  ⟨(room_editor_bounds editorWitnessState 65 rfl rfl).1 (by omega) (by decide),
   (room_editor_bounds fullBufferState 65 rfl rfl).2.1 (by omega) (by decide),
   (room_editor_bounds editorWitnessState 263 rfl rfl).2.2 (Or.inl rfl) rfl⟩

/-! ## C6: Save-and-Exit in `EditingPeriod` -/

/-- C6. Pressing enter on the Save-and-Exit row (`list_items` index 3, tag
`"save_exit"`) of `EditingPeriod`: with a selected subject, the cell
`(selected_period_x, slot key at position selected_period_y)` of
`timetable.periods` now holds `Period(selected_subject, input_buffer)` and the
state becomes `Editing` (1); with no selected subject, the whole state is
unchanged (in particular `state` stays 2 and `periods` is untouched) and the
"Please select a subject." popup is shown. -/
theorem save_exit_commits_period (s : TimetableMenuState) (dayx : List (String × Period))
    (hstate : s.state = 2) (hrow : s.selected_list_item = 3)
    (hx : List.lookup s.selected_period_x s.timetable.periods = some dayx) :
    (∀ subj, s.selected_subject = some subj →
      ((TimetableMenu.process_input_editing_period KEY_ENTER s).1.state = 1 ∧
       List.lookup (TimetableMenu.periodKeyAt s)
         ((List.lookup s.selected_period_x
           (TimetableMenu.process_input_editing_period KEY_ENTER s).1.timetable.periods).getD [])
         = some (Period.mk subj s.input_buffer) ∧
       (TimetableMenu.process_input_editing_period KEY_ENTER s).2 = none))
    ∧ (s.selected_subject = none →
      ((TimetableMenu.process_input_editing_period KEY_ENTER s).1 = s ∧
       (TimetableMenu.process_input_editing_period KEY_ENTER s).1.state = 2 ∧
       (TimetableMenu.process_input_editing_period KEY_ENTER s).2 =
         some "Please select a subject.")) := by
  constructor
  · intro subj hsub
    have hred : TimetableMenu.process_input_editing_period KEY_ENTER s =
        ({ s with
            timetable := { s.timetable with
              periods := updateDay s.timetable.periods s.selected_period_x
                (dictInsert (TimetableMenu.periodKeyAt s) (Period.mk subj s.input_buffer)) },
            state := 1 }, none) := by
      unfold TimetableMenu.process_input_editing_period
      rw [if_pos (Or.inl rfl), hrow, hsub]
      rfl
    rw [hred]
    refine ⟨rfl, ?_, rfl⟩
    show List.lookup (TimetableMenu.periodKeyAt s)
      ((List.lookup s.selected_period_x (updateDay s.timetable.periods s.selected_period_x
        (dictInsert (TimetableMenu.periodKeyAt s) (Period.mk subj s.input_buffer)))).getD []) =
      some (Period.mk subj s.input_buffer)
    rw [lookup_updateDay_self, hx]
    exact lookup_dictInsert_self _ _ _
  · intro hsub
    have hred : TimetableMenu.process_input_editing_period KEY_ENTER s =
        (s, some "Please select a subject.") := by
      unfold TimetableMenu.process_input_editing_period
      rw [if_pos (Or.inl rfl), hrow, hsub]
      rfl
    rw [hred]
    exact ⟨rfl, hstate, rfl⟩

/-- An `EditingPeriod` state on the Save-and-Exit row with the `"m"` subject
selected and room text `"204"`. -/
def saveExitWitnessState : TimetableMenuState :=
  { state := 2, timetable := witnessTimetable, selected_period_x := 1, selected_period_y := 1,
    selected_period := none, selected_subject := some (Subject.mk "m" "Maths" "Smith"),
    input_buffer := "204", selected_list_item := 3, top_list_item := 0, editing := false }

theorem save_exit_commits_period_witness :
    ((TimetableMenu.process_input_editing_period KEY_ENTER saveExitWitnessState).1.state = 1 ∧
     List.lookup (TimetableMenu.periodKeyAt saveExitWitnessState)
       ((List.lookup saveExitWitnessState.selected_period_x
         (TimetableMenu.process_input_editing_period KEY_ENTER
           saveExitWitnessState).1.timetable.periods).getD [])
       = some (Period.mk (Subject.mk "m" "Maths" "Smith") saveExitWitnessState.input_buffer) ∧
     (TimetableMenu.process_input_editing_period KEY_ENTER saveExitWitnessState).2 = none) ∧
    ((TimetableMenu.process_input_editing_period KEY_ENTER
        { saveExitWitnessState with selected_subject := none }).1 =
      { saveExitWitnessState with selected_subject := none } ∧
     (TimetableMenu.process_input_editing_period KEY_ENTER
        { saveExitWitnessState with selected_subject := none }).1.state = 2 ∧
     (TimetableMenu.process_input_editing_period KEY_ENTER
        { saveExitWitnessState with selected_subject := none }).2 =
       some "Please select a subject.") :=
  ⟨(save_exit_commits_period saveExitWitnessState [] rfl rfl rfl).1
      (Subject.mk "m" "Maths" "Smith") rfl,
   (save_exit_commits_period { saveExitWitnessState with selected_subject := none }
      [] rfl rfl rfl).2 rfl⟩

/-! ## C7: Delete in `EditingPeriod` -/

/-- C7. Pressing enter on the Delete row (`list_items` index 2, tag
`"delete"`) of `EditingPeriod` with a populated cursor cell: the cell's entry
is removed from `timetable.periods`, the state becomes `Editing` (1), and
re-rendering the grid highlighted at that cell shows the `<Add New>`
placeholder (no period window remains at the cursor cell). -/
theorem delete_removes_period (s : TimetableMenuState) (dayx : List (String × Period)) (p : Period)
    (_hstate : s.state = 2) (hrow : s.selected_list_item = 2)
    (hy0 : 0 ≤ s.selected_period_y)
    (hy : s.selected_period_y.toNat < s.timetable.period_times.length)
    (hx : List.lookup s.selected_period_x s.timetable.periods = some dayx)
    (hp : List.lookup (TimetableMenu.periodKeyAt s) dayx = some p) :
    (TimetableMenu.process_input_editing_period KEY_ENTER s).1.state = 1 ∧
    List.lookup (TimetableMenu.periodKeyAt s)
      ((List.lookup s.selected_period_x
        (TimetableMenu.process_input_editing_period KEY_ENTER s).1.timetable.periods).getD [])
      = none ∧
    TimetableMenu.shows_add_new
      (TimetableMenu.process_input_editing_period KEY_ENTER s).1.timetable
      s.selected_period_x s.selected_period_y = true := by
  have hsome : (List.lookup (TimetableMenu.periodKeyAt s)
      ((List.lookup s.selected_period_x s.timetable.periods).getD [])).isSome = true := by
    rw [hx, Option.getD_some, hp]
    rfl
  have hred : TimetableMenu.process_input_editing_period KEY_ENTER s =
      ({ s with
          timetable := { s.timetable with
            periods := updateDay s.timetable.periods s.selected_period_x
              (dictErase (TimetableMenu.periodKeyAt s)) },
          state := 1 }, none) := by
    unfold TimetableMenu.process_input_editing_period
    rw [if_pos (Or.inl rfl), hrow]
    simp only [hsome]
    rfl
  rw [hred]
  refine ⟨rfl, ?_, ?_⟩
  · show List.lookup (TimetableMenu.periodKeyAt s)
      ((List.lookup s.selected_period_x (updateDay s.timetable.periods s.selected_period_x
        (dictErase (TimetableMenu.periodKeyAt s)))).getD []) = none
    rw [lookup_updateDay_self, hx]
    exact lookup_dictErase_self _ _
  · show TimetableMenu.shows_add_new
      { s.timetable with
        periods := updateDay s.timetable.periods s.selected_period_x
          (dictErase (TimetableMenu.periodKeyAt s)) }
      s.selected_period_x s.selected_period_y = true
    rw [TimetableMenu.shows_add_new, Bool.not_eq_true', List.any_eq_false]
    intro w hw
    simp only [TimetableMenu.period_window_cells, List.mem_flatMap] at hw
    obtain ⟨d, hd, hwmem⟩ := hw
    simp only [updateDay, List.mem_map] at hd
    obtain ⟨d0, hd0, hite⟩ := hd
    simp only [List.mem_map] at hwmem
    obtain ⟨q, hq, hwq⟩ := hwmem
    by_cases hdx : (d0.1 == s.selected_period_x) = true
    · rw [if_pos hdx] at hite
      subst hite
      have hqmem : q ∈ dictErase (TimetableMenu.periodKeyAt s) d0.2 := hq
      have hqne : q.1 ≠ TimetableMenu.periodKeyAt s := (mem_dictErase _ _ _ hqmem).2
      have hidx : ((pyIndex (s.timetable.period_times.map Prod.fst) q.1 : Int) ==
          s.selected_period_y) = false := by
        rw [beq_eq_false_iff_ne]
        intro heq
        have hnat : pyIndex (s.timetable.period_times.map Prod.fst) q.1 =
            s.selected_period_y.toNat := by omega
        have hlt : s.selected_period_y.toNat < (s.timetable.period_times.map Prod.fst).length := by
          simpa using hy
        have := pyIndex_getD (s.timetable.period_times.map Prod.fst) q.1
          s.selected_period_y.toNat hnat hlt
        exact hqne (by rw [TimetableMenu.periodKeyAt, this])
      rw [← hwq]
      simp only [hidx, Bool.and_false]
      exact Bool.false_ne_true
    · rw [if_neg hdx] at hite
      subst hite
      have hb : (d0.1 == s.selected_period_x) = false := by
        simpa using hdx
      rw [← hwq]
      simp only [hb, Bool.false_and]
      exact Bool.false_ne_true

/-- An `EditingPeriod` state on the Delete row whose cursor cell `(0, 0)` is
populated. -/
def deleteWitnessState : TimetableMenuState :=
  { state := 2, timetable := witnessTimetable, selected_period_x := 0, selected_period_y := 0,
    selected_period := some (Period.mk (Subject.mk "m" "Maths" "Smith") "204"),
    selected_subject := some (Subject.mk "m" "Maths" "Smith"),
    input_buffer := "204", selected_list_item := 2, top_list_item := 0, editing := false }

theorem delete_removes_period_witness :
    (TimetableMenu.process_input_editing_period KEY_ENTER deleteWitnessState).1.state = 1 ∧
    List.lookup (TimetableMenu.periodKeyAt deleteWitnessState)
      ((List.lookup deleteWitnessState.selected_period_x
        (TimetableMenu.process_input_editing_period KEY_ENTER
          deleteWitnessState).1.timetable.periods).getD [])
      = none ∧
    TimetableMenu.shows_add_new
      (TimetableMenu.process_input_editing_period KEY_ENTER deleteWitnessState).1.timetable
      deleteWitnessState.selected_period_x deleteWitnessState.selected_period_y = true :=
  delete_removes_period deleteWitnessState
    [("0", Period.mk (Subject.mk "m" "Maths" "Smith") "204")]
    (Period.mk (Subject.mk "m" "Maths" "Smith") "204")
    rfl rfl (by decide) (by decide) (by decide) (by decide)

/-! ## C8: the wizard rejects an empty subject catalog -/

/-- C8. In the wizard's `ViewingSubjects` state with zero subjects, pressing
enter on the "Create Timetable" row (`list_items` index 1 when the subject
list is empty) leaves the whole creator state unchanged — in particular the
state stays `ViewingSubjects` (2) and `self.timetable` stays `None` — and
shows the blocking "Create at least one subject to proceed." popup. -/
theorem wizard_rejects_empty_subjects (data_dir new_id : String) (s : CreatorState)
    (hstate : s.state = 2) (hsubs : s.subjects = []) (hrow : s.selected_list_item = 1)
    (ht : s.timetable = none) :
    (TimetableCreatorMenu.process_input_viewing_subjects data_dir new_id KEY_ENTER s).1 = s ∧
    (TimetableCreatorMenu.process_input_viewing_subjects data_dir new_id KEY_ENTER s).1.state = 2 ∧
    (TimetableCreatorMenu.process_input_viewing_subjects data_dir new_id KEY_ENTER s).1.timetable
      = none ∧
    (TimetableCreatorMenu.process_input_viewing_subjects data_dir new_id KEY_ENTER s).2 =
      some "Create at least one subject to proceed." := by
  have hred : TimetableCreatorMenu.process_input_viewing_subjects data_dir new_id KEY_ENTER s =
      (s, some "Create at least one subject to proceed.") := by
    unfold TimetableCreatorMenu.process_input_viewing_subjects
    rw [if_pos (Or.inl rfl), hrow, hsubs]
    rfl
  rw [hred]
  exact ⟨rfl, hstate, ht, rfl⟩

/-- A `ViewingSubjects` wizard state with zero subjects, sitting on the
"Create Timetable" row. -/
def emptyCatalogState : CreatorState :=
  { state := 2, input_buffer := [], timetable_name := "My TT", num_periods := 4,
    include_period_zero := false, period_times := [], subjects := [],
    subject_editing_id := none, timetable := none, selected_list_item := 1, top_list_item := 0 }

theorem wizard_rejects_empty_subjects_witness :
    (TimetableCreatorMenu.process_input_viewing_subjects "data" "42" KEY_ENTER
      emptyCatalogState).1 = emptyCatalogState ∧
    (TimetableCreatorMenu.process_input_viewing_subjects "data" "42" KEY_ENTER
      emptyCatalogState).1.state = 2 ∧
    (TimetableCreatorMenu.process_input_viewing_subjects "data" "42" KEY_ENTER
      emptyCatalogState).1.timetable = none ∧
    (TimetableCreatorMenu.process_input_viewing_subjects "data" "42" KEY_ENTER
      emptyCatalogState).2 = some "Create at least one subject to proceed." :=
  wizard_rejects_empty_subjects "data" "42" emptyCatalogState rfl rfl rfl rfl

/-! ## C9: period-times conversion on Next -/

/-- C9. In `CreatingPeriodTimes`, pressing enter on the Next row converts the
flat buffer of `2 * num_periods` strings into the ordered `period_times`
mapping: keys `"0"` .. `str(num_periods - 1)` in order, entry `i` named
`"Period " ++ str(i + s)` with `s = 0` iff period zero is included, start time
`input_buffer[2*i]`, end time `input_buffer[2*i+1]`; the state moves to
`ViewingSubjects` (2). -/
theorem period_times_conversion (s : CreatorState)
    (hstate : s.state = 1)
    (hlen : s.input_buffer.length = 2 * s.num_periods)
    (hrow : (creatingPeriodTimesTags s.num_periods).getD s.selected_list_item.toNat CPTag.title
      = CPTag.next) :
    (TimetableCreatorMenu.process_input_creating_period_times KEY_ENTER s).period_times =
      (List.range s.num_periods).map (fun i =>
        (toString i, PeriodTimeStruct.mk
          ("Period " ++ toString (i + (if s.include_period_zero then 0 else 1)))
          (s.input_buffer.getD (2 * i) "")
          (s.input_buffer.getD (2 * i + 1) ""))) ∧
    (TimetableCreatorMenu.process_input_creating_period_times KEY_ENTER s).state = 2 := by
  have hnext : ¬((creatingPeriodTimesTags s.num_periods).getD s.selected_list_item.toNat
      CPTag.title = CPTag.back) := by
    rw [hrow]
    intro hcon
    cases hcon
  have hdiv : s.input_buffer.length / 2 = s.num_periods := by omega
  unfold TimetableCreatorMenu.process_input_creating_period_times
  rw [if_pos (Or.inl rfl), if_neg hnext, if_pos hrow]
  unfold TimetableCreatorMenu.process_period_times
  rw [if_neg (by omega)]
  refine ⟨?_, rfl⟩
  show ((List.range (s.input_buffer.length / 2)).map (fun index =>
      (toString index,
        PeriodTimeStruct.mk
          ("Period " ++ toString (index + if s.include_period_zero then 0 else 1))
          (s.input_buffer.getD (index * 2) "")
          (s.input_buffer.getD (index * 2 + 1) "")))) = _
  rw [hdiv]
  exact List.map_congr_left (fun i _ => by rw [Nat.mul_comm i 2])

/-- A `CreatingPeriodTimes` wizard state with a filled two-period buffer,
sitting on the Next row (index `3 * num_periods = 6`). -/
def periodTimesWitnessState : CreatorState :=
  { state := 1, input_buffer := ["0800", "0845", "0900", "0945"], timetable_name := "My TT",
    num_periods := 2, include_period_zero := false, period_times := [], subjects := [],
    subject_editing_id := none, timetable := none, selected_list_item := 6, top_list_item := 0 }

theorem period_times_conversion_witness :
    (TimetableCreatorMenu.process_input_creating_period_times KEY_ENTER
        periodTimesWitnessState).period_times =
      (List.range periodTimesWitnessState.num_periods).map (fun i =>
        (toString i, PeriodTimeStruct.mk
          ("Period " ++ toString (i + (if periodTimesWitnessState.include_period_zero then 0
            else 1)))
          (periodTimesWitnessState.input_buffer.getD (2 * i) "")
          (periodTimesWitnessState.input_buffer.getD (2 * i + 1) ""))) ∧
    (TimetableCreatorMenu.process_input_creating_period_times KEY_ENTER
        periodTimesWitnessState).state = 2 :=
  period_times_conversion periodTimesWitnessState rfl rfl (by decide)

/-! ## C1: save/load round trip -/

/-- A valid in-memory timetable: the day dict is keyed `0 .. len-1` in
insertion order (as both the wizard and the loader construct it — `save_file`
discards day keys and `load_file` re-enumerates them), every subject entry's
own id equals its dict key (as both constructors guarantee), and every
scheduled period references a subject present in the subject dict. -/
def Timetable.valid (t : Timetable) : Prop :=
  t.periods.map Prod.fst = (List.range t.periods.length).map Int.ofNat
  ∧ (∀ q ∈ t.subjects, q.2.subject_id = q.1)
  ∧ (∀ d ∈ t.periods, ∀ p ∈ d.2, (List.lookup p.2.subject.subject_id t.subjects).isSome = true)

instance (t : Timetable) : Decidable t.valid := by
  unfold Timetable.valid
  infer_instance

lemma load_subjects_save (l : List (String × Subject)) (hw : ∀ q ∈ l, q.2.subject_id = q.1) :
    load_subjects (l.map (fun q => (q.1, RawSubject.mk (some q.2.name) (some q.2.teacher)))) =
      Except.ok l := by
  induction l with
  | nil => rfl
  | cons q rest ih =>
    obtain ⟨k, subj⟩ := q
    have hk : subj.subject_id = k := hw (k, subj) (List.mem_cons_self _ _)
    have hrest := ih (fun q hq => hw q (List.mem_cons_of_mem _ hq))
    obtain ⟨sid, nm, te⟩ := subj
    simp only at hk
    subst hk
    simp only [List.map_cons, load_subjects, hrest]

lemma load_period_times_save (l : List (String × PeriodTimeStruct)) :
    load_period_times (l.map (fun q =>
      (q.1, RawPeriodTime.mk (some q.2.name) (some q.2.start_time) (some q.2.end_time)))) =
      Except.ok l := by
  induction l with
  | nil => rfl
  | cons q rest ih =>
    obtain ⟨k, pt⟩ := q
    obtain ⟨nm, st, en⟩ := pt
    simp only [List.map_cons, load_period_times, ih]

lemma lookup_subject_id : ∀ (l : List (String × Subject)),
    (∀ q ∈ l, q.2.subject_id = q.1) →
    ∀ (k : String) (v : Subject), List.lookup k l = some v → v.subject_id = k
  | [], _, k, v, h => by simp [List.lookup] at h
  | (k1, v1) :: rest, hw, k, v, h => by
    by_cases hk : k = k1
    · subst hk
      rw [List.lookup_cons] at h
      simp only [beq_self_eq_true] at h
      injection h with h2
      subst h2
      exact hw (k, v1) (List.mem_cons_self _ _)
    · have hb : (k == k1) = false := beq_eq_false_iff_ne.mpr hk
      rw [List.lookup_cons, hb] at h
      exact lookup_subject_id rest (fun q hq => hw q (List.mem_cons_of_mem _ hq)) k v h

lemma load_day_save (subs : List (String × Subject))
    (hw : ∀ q ∈ subs, q.2.subject_id = q.1) :
    ∀ (day : List (String × Period)),
      (∀ p ∈ day, (List.lookup p.2.subject.subject_id subs).isSome = true) →
      ∃ d2, load_day subs (day.map (fun p =>
          (p.1, RawPeriod.mk (some p.2.subject.subject_id) (some p.2.room)))) = Except.ok d2 ∧
        d2.map (fun p => (p.1, p.2.subject.subject_id, p.2.room)) =
          day.map (fun p => (p.1, p.2.subject.subject_id, p.2.room))
  | [], _ => ⟨[], rfl, rfl⟩
  | (pid, per) :: rest, hs => by
    have hhead := hs (pid, per) (List.mem_cons_self _ _)
    obtain ⟨subj, hsubj⟩ := Option.isSome_iff_exists.mp hhead
    obtain ⟨d2, hload, hview⟩ := load_day_save subs hw rest
      (fun p hp => hs p (List.mem_cons_of_mem _ hp))
    refine ⟨(pid, Period.mk subj per.room) :: d2, ?_, ?_⟩
    · simp only [List.map_cons, load_day, hsubj, hload]
    · simp only [List.map_cons, hview, List.cons.injEq, and_true]
      have hsid : subj.subject_id = per.subject.subject_id :=
        lookup_subject_id subs hw _ _ hsubj
      rw [hsid]

lemma load_days_save (subs : List (String × Subject))
    (hw : ∀ q ∈ subs, q.2.subject_id = q.1) :
    ∀ (days : List (Int × List (String × Period))),
      (∀ d ∈ days, ∀ p ∈ d.2, (List.lookup p.2.subject.subject_id subs).isSome = true) →
      ∀ (i : Nat),
      ∃ ds2, load_days subs (days.map (fun d => d.2.map (fun p =>
          (p.1, RawPeriod.mk (some p.2.subject.subject_id) (some p.2.room))))) i =
          Except.ok ds2 ∧
        ds2.map Prod.fst = (List.range days.length).map (fun j => Int.ofNat (i + j)) ∧
        ds2.map (fun d => d.2.map (fun p => (p.1, p.2.subject.subject_id, p.2.room))) =
          days.map (fun d => d.2.map (fun p => (p.1, p.2.subject.subject_id, p.2.room)))
  | [], _, i => ⟨[], rfl, rfl, rfl⟩
  | (dk, day) :: rest, hs, i => by
    obtain ⟨d2, hload, hview⟩ := load_day_save subs hw day
      (fun p hp => hs (dk, day) (List.mem_cons_self _ _) p hp)
    obtain ⟨ds2, hloads, hkeys, hviews⟩ := load_days_save subs hw rest
      (fun d hd => hs d (List.mem_cons_of_mem _ hd)) (i + 1)
    refine ⟨(Int.ofNat i, d2) :: ds2, ?_, ?_, ?_⟩
    · simp only [List.map_cons, load_days, hload, hloads]
    · rw [List.map_cons, hkeys, List.length_cons, List.range_succ_eq_map, List.map_cons,
        List.map_map]
      refine congrArg₂ List.cons (by simp) (List.map_congr_left ?_)
      intro j _
      show Int.ofNat (i + 1 + j) = Int.ofNat (i + Nat.succ j)
      congr 1
      omega
    · simp only [List.map_cons, hview, hviews]

/-- C1. Round trip: serializing a valid in-memory timetable with
`Timetable.save_file` and deserializing the document with `App.load_file`
succeeds and reproduces the same `name`, the same subject dict (ids, names,
teachers), the same period-time entries, and the same populated cells — the
same day keys in order, and per day the same ordered `(slot key, subject id,
room)` triples. -/
theorem round_trip_save_load (t : Timetable) (fn : String) (h : t.valid) :
    ∃ t2, App.load_file (Timetable.save_file t) fn = Except.ok t2 ∧
      t2.name = t.name ∧
      t2.subjects = t.subjects ∧
      t2.period_times = t.period_times ∧
      t2.periods.map Prod.fst = t.periods.map Prod.fst ∧
      t2.periods.map (fun d => d.2.map (fun p => (p.1, p.2.subject.subject_id, p.2.room))) =
        t.periods.map (fun d => d.2.map (fun p => (p.1, p.2.subject.subject_id, p.2.room))) := by
  obtain ⟨hkeys, hw, href⟩ := h
  obtain ⟨ds2, hloads, hdkeys, hdviews⟩ := load_days_save t.subjects hw t.periods href 0
  refine ⟨Timetable.mk ds2 t.subjects t.period_times t.name fn, ?_, rfl, rfl, rfl, ?_, ?_⟩
  · unfold App.load_file Timetable.save_file
    simp only [load_subjects_save t.subjects hw, hloads, load_period_times_save t.period_times]
  · rw [hdkeys, hkeys]
    exact List.map_congr_left (fun j _ => by simp)
  · exact hdviews

theorem round_trip_save_load_witness :
    witnessTimetable.valid ∧
    (∃ t2, App.load_file (Timetable.save_file witnessTimetable) "f" = Except.ok t2 ∧
      t2.name = witnessTimetable.name ∧
      t2.subjects = witnessTimetable.subjects ∧
      t2.period_times = witnessTimetable.period_times ∧
      t2.periods.map Prod.fst = witnessTimetable.periods.map Prod.fst ∧
      t2.periods.map (fun d => d.2.map (fun p => (p.1, p.2.subject.subject_id, p.2.room))) =
        witnessTimetable.periods.map
          (fun d => d.2.map (fun p => (p.1, p.2.subject.subject_id, p.2.room)))) :=
  ⟨by decide, round_trip_save_load witnessTimetable "f" (by decide)⟩

/-! ## C2: referential integrity on load -/

/-- A period entry that invalidates the file per the referential-integrity
rule: it is missing `room`, or its `subject` id is not a key of the document's
subject dict. -/
def badPeriodEntry (subject_keys : List String) (e : String × RawPeriod) : Bool :=
  e.2.room.isNone ||
    (match e.2.subject with
     | some sid => !(subject_keys.contains sid)
     | none => false)

lemma load_subjects_keys : ∀ (l : List (String × RawSubject)) (subs : List (String × Subject)),
    load_subjects l = Except.ok subs → subs.map Prod.fst = l.map Prod.fst
  | [], subs, h => by
    injection h with h2
    rw [← h2]
    rfl
  | (sid, raw) :: rest, subs, h => by
    rcases hn : raw.name with _ | nm
    · simp only [load_subjects, hn] at h
      exact Except.noConfusion h
    · rcases ht : raw.teacher with _ | te
      · simp only [load_subjects, hn, ht] at h
        exact Except.noConfusion h
      · rcases hrec : load_subjects rest with msg | rs
        · simp only [load_subjects, hn, ht, hrec] at h
          exact Except.noConfusion h
        · simp only [load_subjects, hn, ht, hrec] at h
          injection h with h2
          rw [← h2, List.map_cons, List.map_cons, load_subjects_keys rest rs hrec]

lemma lookup_eq_none_of_contains_false {β : Type} (l : List (String × β)) (k : String)
    (h : (l.map Prod.fst).contains k = false) : List.lookup k l = none := by
  induction l with
  | nil => rfl
  | cons p rest ih =>
    rw [List.map_cons, List.contains_cons, Bool.or_eq_false_iff] at h
    rw [List.lookup_cons, h.1]
    exact ih h.2

lemma load_day_error (subs : List (String × Subject)) :
    ∀ (day : List (String × RawPeriod)),
      (∃ e ∈ day, badPeriodEntry (subs.map Prod.fst) e = true) →
      ∃ msg, load_day subs day = Except.error msg
  | [], h => absurd h (by simp)
  | (pid, val) :: rest, h => by
    rcases hsub : val.subject with _ | sid
    · exact ⟨"No subject ID found", by simp only [load_day, hsub]⟩
    · rcases hroom : val.room with _ | room
      · refine ⟨pid ++ " has no subject or room", ?_⟩
        rcases hlook : List.lookup sid subs with _ | subj
        · simp only [load_day, hsub, hroom, hlook]
        · simp only [load_day, hsub, hroom, hlook]
      · rcases hlook : List.lookup sid subs with _ | subj
        · exact ⟨pid ++ " has no subject or room", by simp only [load_day, hsub, hroom, hlook]⟩
        · have hrest : ∃ e ∈ rest, badPeriodEntry (subs.map Prod.fst) e = true := by
            rcases h with ⟨e, he, hbad⟩
            rcases List.mem_cons.mp he with rfl | hmem
            · exfalso
              simp only [badPeriodEntry, hsub, hroom, Option.isNone_some, Bool.false_or,
                Bool.not_eq_true'] at hbad
              have hnone := lookup_eq_none_of_contains_false subs sid hbad
              rw [hlook] at hnone
              simp at hnone
            · exact ⟨e, hmem, hbad⟩
          obtain ⟨msg, hmsg⟩ := load_day_error subs rest hrest
          exact ⟨msg, by simp only [load_day, hsub, hroom, hlook, hmsg]⟩

lemma load_days_error (subs : List (String × Subject)) :
    ∀ (days : List (List (String × RawPeriod))) (i : Nat),
      (∃ day ∈ days, ∃ e ∈ day, badPeriodEntry (subs.map Prod.fst) e = true) →
      ∃ msg, load_days subs days i = Except.error msg
  | [], _, h => absurd h (by simp)
  | day :: rest, i, h => by
    rcases hload : load_day subs day with msg | d
    · exact ⟨msg, by simp only [load_days, hload]⟩
    · have hrest : ∃ day2 ∈ rest, ∃ e ∈ day2, badPeriodEntry (subs.map Prod.fst) e = true := by
        rcases h with ⟨day2, hd2, hbad⟩
        rcases List.mem_cons.mp hd2 with rfl | hmem
        · exfalso
          obtain ⟨msg, hmsg⟩ := load_day_error subs day2 hbad
          rw [hload] at hmsg
          simp at hmsg
        · exact ⟨day2, hmem, hbad⟩
      obtain ⟨msg, hmsg⟩ := load_days_error subs rest (i + 1) hrest
      exact ⟨msg, by simp only [load_days, hload, hmsg]⟩

/-- C2. Referential integrity on load: for every document in which some period
entry references a subject id absent from the `subjects` dict, or is missing
`room`, `App.load_file` fails with `InvalidDataException` (an `Except.error`):
no `Timetable` is produced, so the bad period is neither dropped nor given a
default subject. -/
theorem load_file_rejects_bad_period (doc : JsonDoc) (fn : String)
    (h : ∃ day ∈ doc.timetable, ∃ e ∈ day,
      badPeriodEntry (doc.subjects.map Prod.fst) e = true) :
    ∃ msg, App.load_file doc fn = Except.error msg := by
  unfold App.load_file
  rcases hsub : load_subjects doc.subjects with msg | subs
  · exact ⟨msg, rfl⟩
  · have hkeys : subs.map Prod.fst = doc.subjects.map Prod.fst :=
      load_subjects_keys _ _ hsub
    have h2 : ∃ day ∈ doc.timetable, ∃ e ∈ day,
        badPeriodEntry (subs.map Prod.fst) e = true := by
      rw [hkeys]
      exact h
    obtain ⟨msg, hmsg⟩ := load_days_error subs doc.timetable 0 h2
    refine ⟨msg, ?_⟩
    show (match load_days subs doc.timetable 0 with
      | Except.error e => Except.error e
      | Except.ok periods =>
        match load_period_times doc.period_times with
        | Except.error e => Except.error e
        | Except.ok period_times =>
          Except.ok (Timetable.mk periods subs period_times doc.name fn)) = Except.error msg
    rw [hmsg]

/-- A document whose only period references the absent subject id "ghost". -/
def badDoc : JsonDoc :=
  { name := "Bad",
    timetable := [[("0", RawPeriod.mk (some "ghost") (some "204"))]],
    subjects := [("m", RawSubject.mk (some "Maths") (some "Smith"))],
    period_times := [("0", RawPeriodTime.mk (some "Period 1") (some "0900") (some "0950"))] }

theorem load_file_rejects_bad_period_witness :
    (∃ day ∈ badDoc.timetable, ∃ e ∈ day,
      badPeriodEntry (badDoc.subjects.map Prod.fst) e = true) ∧
    ∃ msg, App.load_file badDoc "f" = Except.error msg :=
  ⟨by decide, load_file_rejects_bad_period badDoc "f" (by decide)⟩

/-! ## C10: implicit day-count postcondition of load -/

lemma load_days_keys (subs : List (String × Subject)) :
    ∀ (days : List (List (String × RawPeriod))) (i : Nat)
      (ds : List (Int × List (String × Period))),
      load_days subs days i = Except.ok ds →
      ds.map Prod.fst = (List.range days.length).map (fun j => Int.ofNat (i + j))
  | [], _, ds, h => by
    injection h with h2
    rw [← h2]
    rfl
  | day :: rest, i, ds, h => by
    rcases hload : load_day subs day with msg | d
    · simp only [load_days, hload] at h
      exact Except.noConfusion h
    · rcases hrec : load_days subs rest (i + 1) with msg | r
      · simp only [load_days, hload, hrec] at h
        exact Except.noConfusion h
      · simp only [load_days, hload, hrec] at h
        injection h with h2
        rw [← h2, List.map_cons, load_days_keys subs rest (i + 1) r hrec,
            List.length_cons, List.range_succ_eq_map, List.map_cons, List.map_map]
        refine congrArg₂ List.cons (by simp) (List.map_congr_left ?_)
        intro j _
        show Int.ofNat (i + 1 + j) = Int.ofNat (i + Nat.succ j)
        congr 1
        omega

/-- A loadable document with two day entries. -/
def docTwo : JsonDoc :=
  { name := "Two", timetable := [[], []],
    subjects := [("m", RawSubject.mk (some "Maths") (some "Smith"))],
    period_times := [("0", RawPeriodTime.mk (some "Period 1") (some "0900") (some "0950"))] }

/-- The timetable `App.load_file` produces from `docTwo`. -/
def ttTwo : Timetable :=
  Timetable.mk [(Int.ofNat 0, []), (Int.ofNat 1, [])]
    [("m", Subject.mk "m" "Maths" "Smith")]
    [("0", PeriodTimeStruct.mk "Period 1" "0900" "0950")]
    "Two" "two.json"

/-- A loadable document with six day entries. -/
def docSix : JsonDoc :=
  { docTwo with name := "Six", timetable := [[], [], [], [], [], []] }

/-- The timetable `App.load_file` produces from `docSix`. -/
def ttSix : Timetable :=
  { ttTwo with
      periods := [(Int.ofNat 0, []), (Int.ofNat 1, []), (Int.ofNat 2, []),
        (Int.ofNat 3, []), (Int.ofNat 4, []), (Int.ofNat 5, [])],
      name := "Six", filename := "six.json" }

/-- C10. Implicit day-count postcondition of load: every accepted document
yields exactly one day entry per element of the `timetable` array, keyed `0`
through `len - 1`; `load_file` never checks for exactly five days, so
documents with two or six day entries load successfully, while the wizard's
`create_timetable` always builds six empty day entries keyed `0` to `5`. -/
theorem load_file_day_count :
    (∀ (doc : JsonDoc) (fn : String) (t : Timetable),
      App.load_file doc fn = Except.ok t →
      t.periods.map Prod.fst = (List.range doc.timetable.length).map Int.ofNat)
    ∧ (docTwo.timetable.length = 2 ∧ App.load_file docTwo "two.json" = Except.ok ttTwo)
    ∧ (docSix.timetable.length = 6 ∧ App.load_file docSix "six.json" = Except.ok ttSix)
    ∧ (∀ (data_dir : String) (s : CreatorState),
        (TimetableCreatorMenu.create_timetable data_dir s).timetable =
          some (Timetable.mk ((List.range 6).map (fun i => ((i : Int), [])))
            s.subjects s.period_times s.timetable_name
            (TimetableCreatorMenu.timetable_filename data_dir s.timetable_name))) := by
  refine ⟨?_, ⟨rfl, rfl⟩, ⟨rfl, rfl⟩, fun dd s => rfl⟩
  intro doc fn t h
  unfold App.load_file at h
  rcases hsub : load_subjects doc.subjects with msg | subs
  · rw [hsub] at h
    exact Except.noConfusion h
  · rw [hsub] at h
    replace h : (match load_days subs doc.timetable 0 with
      | Except.error e => Except.error e
      | Except.ok periods =>
        match load_period_times doc.period_times with
        | Except.error e => Except.error e
        | Except.ok period_times =>
          Except.ok (Timetable.mk periods subs period_times doc.name fn)) = Except.ok t := h
    rcases hdays : load_days subs doc.timetable 0 with msg | ds
    · rw [hdays] at h
      exact Except.noConfusion h
    · rw [hdays] at h
      replace h : (match load_period_times doc.period_times with
        | Except.error e => Except.error e
        | Except.ok period_times =>
          Except.ok (Timetable.mk ds subs period_times doc.name fn)) = Except.ok t := h
      rcases hpt : load_period_times doc.period_times with msg | pts
      · rw [hpt] at h
        exact Except.noConfusion h
      · rw [hpt] at h
        replace h : Except.ok (Timetable.mk ds subs pts doc.name fn) = Except.ok t := h
        injection h with h2
        rw [← h2]
        show ds.map Prod.fst = (List.range doc.timetable.length).map Int.ofNat
        rw [load_days_keys subs doc.timetable 0 ds hdays]
        exact List.map_congr_left (fun j _ => by simp)

theorem load_file_day_count_witness :
    ttTwo.periods.map Prod.fst = (List.range docTwo.timetable.length).map Int.ofNat :=
  load_file_day_count.1 docTwo "two.json" ttTwo load_file_day_count.2.1.2
